import Mathlib

/-
Verification of the fee-estimation pipeline of ivy-priority-fee
(src/main.rs).  The network-facing parts (the HTTP POST, the JSON
deserializer) are modelled as explicit inputs: an `HttpResponse` record
(status code and raw body bytes) and a `parse` oracle standing for
serde_json; everything downstream of them is translated directly from
the source.  Rust machine integers are modelled as `Nat` with explicit
reduction modulo 2 ^ 64 or 2 ^ 128 where the source can overflow
(release-profile wrapping semantics), and the `u64 as i64` cast is
modelled as the corresponding two's-complement reinterpretation on
`Int`.
-/

namespace IvyPriorityFee

/-- `MAX_RESPONSE_LEN` from src/main.rs: the cap on bytes read from the
batch response body. -/
def MAX_RESPONSE_LEN : Nat := 100000000

/-- `MAX_RETRIES` from src/main.rs: the number of attempts of the
batched transaction fetch. -/
def MAX_RETRIES : Nat := 10

/-- `struct JsonRpcError { code: i64, message: String }`. -/
structure JsonRpcError where
  code : Int
  message : String
deriving DecidableEq

/-- `struct TransactionMeta { fee: u64, compute_units_consumed: Option<u64> }`
(the JSON field `computeUnitsConsumed`). -/
structure TransactionMeta where
  fee : Nat
  compute_units_consumed : Option Nat
deriving DecidableEq

/-- `struct TransactionResult { meta: Option<TransactionMeta> }`. -/
structure TransactionResult where
  meta : Option TransactionMeta
deriving DecidableEq

/-- `struct BatchItem<T> { result: Option<T>, error: Option<JsonRpcError>, id }`.
The ids this program assigns are the numerals `0..n-1`, so `id` is a `Nat`. -/
structure BatchItem (T : Type) where
  result : Option T
  error : Option JsonRpcError
  id : Nat
deriving DecidableEq

/-- The Rust cast `v as i64` applied to a `u64` value `v`:
two's-complement reinterpretation. -/
def u64_as_i64 (v : Nat) : Int :=
  if v < 2 ^ 63 then (v : Int) else (v : Int) - 2 ^ 64

/-- Wrapping `u128` subtraction `a - b` for `a, b < 2 ^ 128`
(release-profile semantics of the unguarded Rust subtraction). -/
def sub_u128 (a b : Nat) : Nat := (a + (2 ^ 128 - b)) % 2 ^ 128

/-- Wrapping `u128` multiplication. -/
def mul_u128 (a b : Nat) : Nat := (a * b) % 2 ^ 128

/-- The Rust cast `v as u64` applied to a `u128` value. -/
def as_u64 (v : Nat) : Nat := v % 2 ^ 64

/-- The body of the per-item loop of `get_priority_fees_for_signatures`
(src/main.rs lines 205-236): `none` means `continue` (the item is
skipped), `some fee` means `out.push(fee)`. -/
def process_item (item : BatchItem TransactionResult) : Option Nat :=
  if item.error.isSome then none
  else
    match item.result with
    | none => none
    | some tr =>
      match tr.meta with
      | none => none
      | some meta =>
        let compute_units : Int := u64_as_i64 (meta.compute_units_consumed.getD 0)
        if compute_units ≤ 0 then none
        else
          let fee_lamports : Nat := meta.fee
          some (as_u64 (mul_u128 (sub_u128 fee_lamports 5000) 1000000 / compute_units.toNat))

/-- The accumulation loop `for item in responses { ... out.push(...) }`
of `get_priority_fees_for_signatures`. -/
def extract_fees : List (BatchItem TransactionResult) → List Nat
  | [] => []
  | item :: rest =>
    match process_item item with
    | none => extract_fees rest
    | some fee => fee :: extract_fees rest

/-- An HTTP response from the remote node: status code and raw body bytes. -/
structure HttpResponse where
  status : Nat
  body : List Nat

/-- The failure modes of the batched call (src/main.rs lines 190-201):
non-200 status, a read/deserialization failure, or the distinct
batch-too-large condition. -/
inductive RpcFailure where
  | transport (status : Nat) (body : List Nat)
  | parseFailed
  | batchTooLarge
deriving DecidableEq

/-- `get_priority_fees_for_signatures` (src/main.rs lines 167-238) from
the arrival of the HTTP response on: the status check, the capped read
`resp.into_reader().take(MAX_RESPONSE_LEN).read_to_string(..)`, the
deserialization (the `parse` oracle stands for
`serde_json::from_str`), the batch-too-large check, and the extraction
loop. -/
def get_priority_fees_for_signatures
    (parse : List Nat → Option (List (BatchItem TransactionResult)))
    (signatures : List String) (resp : HttpResponse) :
    Except RpcFailure (List Nat) :=
  if resp.status ≠ 200 then .error (.transport resp.status resp.body)
  else
    match parse (resp.body.take MAX_RESPONSE_LEN) with
    | none => .error .parseFailed
    | some responses =>
      if responses.length = 0 ∧ signatures.length ≠ 0 then .error .batchTooLarge
      else .ok (extract_fees responses)

/-- The retry loop of `get_reasonable_priority_fee` (src/main.rs lines
49-59), with the two mutable locals made explicit: each list element is
the outcome of one call of `get_priority_fees_for_signatures`; the
accumulator pair is `(priority_fee_error, priority_fees)`.  Note the
source never resets `priority_fee_error` to `None` when a later attempt
succeeds. -/
def retry_loop : List (Except RpcFailure (List Nat)) → Option RpcFailure → List Nat →
    Option RpcFailure × List Nat
  | [], err, fees => (err, fees)
  | .ok v :: _, err, _ => (err, v)
  | .error e :: rest, _, fees => retry_loop rest (some e) fees

/-- `get_reasonable_priority_fee` (src/main.rs lines 41-71).
`sig_result` is the outcome of `get_signatures_for_address` (propagated
by `?`); `attempts` is the sequence of outcomes the successive calls of
`get_priority_fees_for_signatures` would produce, of which the loop
consumes at most `MAX_RETRIES`. -/
def get_reasonable_priority_fee
    (sig_result : Except RpcFailure (List String))
    (attempts : List (Except RpcFailure (List Nat))) :
    Except RpcFailure Nat :=
  match sig_result with
  | .error e => .error e
  | .ok signatures =>
    if signatures.isEmpty then .ok 0
    else
      match retry_loop (attempts.take MAX_RETRIES) none [] with
      | (some e, _) => .error e
      | (none, priority_fees) =>
        if priority_fees.isEmpty then .ok 0
        else
          .ok (min ((priority_fees.insertionSort (fun a b => a ≤ b)).getD
            (priority_fees.length / 2) 0) 5000000)

/-- Modelled from the spec: the per-item skip condition of the fee
extractor as the (amended) claim words it — the item carries an error, or
its result is absent, or its meta is absent, or its computeUnitsConsumed
(defaulted to 0 when absent) is 0 or at least 2 ^ 63 (the amendment: the
source casts the u64 value to i64 before the non-positivity check, so
values of 2 ^ 63 and above also count as non-positive).  Used to compare
the source's `process_item` against the claim's characterization. -/
def spec_skip_condition (item : BatchItem TransactionResult) : Bool :=
  item.error.isSome ||
    (match item.result with
     | none => true
     | some tr =>
       match tr.meta with
       | none => true
       | some m =>
         decide (m.compute_units_consumed.getD 0 = 0) ||
           decide (2 ^ 63 ≤ m.compute_units_consumed.getD 0))

/-- A deserialization oracle standing for `serde_json::from_str` on a
response whose first `MAX_RESPONSE_LEN` bytes form one complete batch
document (any remaining bytes being trailing padding): parsing the
truncated prefix succeeds and yields one valid item. -/
def cap_probe_parse (s : List Nat) :
    Option (List (BatchItem TransactionResult)) :=
  if s.length = MAX_RESPONSE_LEN then
    some [⟨some ⟨some ⟨10000, some 1000⟩⟩, none, 0⟩]
  else none

/-- Claim C1: the claim states that if any one of the up to 10 attempts of
the batched fee extraction succeeds, `get_reasonable_priority_fee` uses the
first successful attempt's output and returns a fee estimate rather than an
error.  The code violates this: `priority_fee_error` is never reset to
`None` when a later attempt succeeds, so any failed attempt before the
first success makes the function return the stale error.  This theorem
evaluates the code at the failing input: the first attempt fails with the
batch-too-large error, the second attempt succeeds with samples `[100]`,
yet the function returns the first attempt's error instead of a fee
estimate. -/
theorem claim_C1_retry_bug :
    get_reasonable_priority_fee (.ok ["s"])
      (.error .batchTooLarge :: List.replicate 9 (.ok [100])) =
      .error .batchTooLarge := by
  rfl

/-- Claim C2: for every batch item that reaches the fee computation (no
error, result and meta present, positive compute units) and whose fee is
below 5000 lamports, the unguarded `u128` subtraction `fee_lamports - 5000`
is still performed (the item is not skipped) and underflows: under the
modelled release-profile wrapping semantics its value is
`fee + (2 ^ 128 - 5000)`, which is not the mathematical difference
`fee - 5000`; the computation is faithful to the true difference only
under the precondition `fee_lamports ≥ 5000`. -/
theorem claim_C2 (fee cu id : Nat) (hfee64 : fee < 2 ^ 64) (hfee : fee < 5000)
    (hcu0 : 0 < cu) (hcu63 : cu < 2 ^ 63) :
    process_item ⟨some ⟨some ⟨fee, some cu⟩⟩, none, id⟩ =
      some (as_u64 (mul_u128 (sub_u128 fee 5000) 1000000 / cu)) ∧
    sub_u128 fee 5000 = fee + (2 ^ 128 - 5000) ∧
    ((sub_u128 fee 5000 : Nat) : Int) ≠ (fee : Int) - 5000 := by
  have hwrap : sub_u128 fee 5000 = fee + (2 ^ 128 - 5000) := by
    unfold sub_u128
    apply Nat.mod_eq_of_lt
    omega
  refine ⟨?_, hwrap, ?_⟩
  · have hpos : ¬((cu : Int) ≤ 0) := by exact_mod_cast not_le.mpr hcu0
    have hcast : u64_as_i64 cu = (cu : Int) := by
      unfold u64_as_i64
      rw [if_pos hcu63]
    simp [process_item, hcast, hpos]
  · rw [hwrap]
    push_cast
    omega

/-- Claim C2 witness: the underflow at the concrete input fee = 0,
computeUnitsConsumed = 1. -/
theorem claim_C2_witness :
    process_item ⟨some ⟨some ⟨0, some 1⟩⟩, none, 0⟩ =
      some (as_u64 (mul_u128 (sub_u128 0 5000) 1000000 / 1)) ∧
    sub_u128 0 5000 = 0 + (2 ^ 128 - 5000) ∧
    ((sub_u128 0 5000 : Nat) : Int) ≠ (0 : Int) - 5000 :=
  claim_C2 0 1 0 (by norm_num) (by norm_num) (by norm_num) (by norm_num)

/-- Claim C10: because `computeUnitsConsumed` is cast from u64 to i64
before the non-positivity check, every batch item whose
computeUnitsConsumed is at least 2 ^ 63 (but within u64 range) is treated
as non-positive and excluded from the samples, although its actual value
is strictly positive. -/
theorem claim_C10 (fee cu id : Nat) (hlo : 2 ^ 63 ≤ cu) (hhi : cu < 2 ^ 64) :
    process_item ⟨some ⟨some ⟨fee, some cu⟩⟩, none, id⟩ = none ∧ 0 < cu := by
  constructor
  · have hneg : u64_as_i64 cu ≤ 0 := by
      unfold u64_as_i64
      rw [if_neg (by omega)]
      have : (cu : Int) < 2 ^ 64 := by exact_mod_cast hhi
      omega
    simp [process_item, hneg]
  · omega

/-- Claim C10 witness: computeUnitsConsumed = 2 ^ 63 is excluded although
strictly positive. -/
theorem claim_C10_witness :
    process_item ⟨some ⟨some ⟨10000, some (2 ^ 63)⟩⟩, none, 0⟩ = none ∧
    0 < (2 ^ 63 : Nat) :=
  claim_C10 10000 (2 ^ 63) 0 (le_refl _) (by norm_num)

/-- Claim C3 counterexample: the claim states that every eligible item
with fee ≥ 5000 yields the sample `((fee - 5000) * 1000000) / cu`
exactly.  At fee = 2 ^ 64 - 1 (a valid u64) and computeUnitsConsumed = 1
the quotient exceeds 2 ^ 64 and the final `as u64` cast truncates it, so
the stored sample differs from the formula. -/
theorem claim_C3_cex :
    process_item ⟨some ⟨some ⟨18446744073709551615, some 1⟩⟩, none, 0⟩ ≠
      some ((18446744073709551615 - 5000) * 1000000 / 1) ∧
    process_item ⟨some ⟨some ⟨18446744073709551615, some 1⟩⟩, none, 0⟩ =
      some ((18446744073709551615 - 5000) * 1000000 / 1 % 2 ^ 64) := by
  constructor
  · decide
  · decide

/-- Claim C3 amended: for every eligible item (no error, result and meta
present, 0 < computeUnitsConsumed < 2 ^ 63) with 5000 ≤ fee < 2 ^ 64, the
stored sample equals `((fee - 5000) * 1000000 / cu) % 2 ^ 64` — the exact
formula reduced by the final cast to u64; the 128-bit multiplication
itself never overflows, and whenever the quotient fits in u64 the sample
equals the formula exactly (in particular fee = 10000, cu = 1000 yields
5000000). -/
theorem claim_C3_amended (fee cu id : Nat) (hfee64 : fee < 2 ^ 64)
    (hfee : 5000 ≤ fee) (hcu0 : 0 < cu) (hcu63 : cu < 2 ^ 63) :
    process_item ⟨some ⟨some ⟨fee, some cu⟩⟩, none, id⟩ =
      some ((fee - 5000) * 1000000 / cu % 2 ^ 64) ∧
    (fee - 5000) * 1000000 < 2 ^ 128 ∧
    ((fee - 5000) * 1000000 / cu < 2 ^ 64 →
      process_item ⟨some ⟨some ⟨fee, some cu⟩⟩, none, id⟩ =
        some ((fee - 5000) * 1000000 / cu)) := by
  have hsub : sub_u128 fee 5000 = fee - 5000 := by
    unfold sub_u128
    have h1 : fee + (2 ^ 128 - 5000) = (fee - 5000) + 2 ^ 128 := by omega
    rw [h1, Nat.add_mod_right]
    apply Nat.mod_eq_of_lt
    omega
  have hmulb : (fee - 5000) * 1000000 < 2 ^ 128 := by
    have h2 : fee - 5000 < 2 ^ 64 := by omega
    calc (fee - 5000) * 1000000 < 2 ^ 64 * 1000000 := by
          exact Nat.mul_lt_mul_of_lt_of_le h2 (le_refl _) (by norm_num)
      _ < 2 ^ 128 := by norm_num
  have hmul : mul_u128 (sub_u128 fee 5000) 1000000 = (fee - 5000) * 1000000 := by
    unfold mul_u128
    rw [hsub]
    exact Nat.mod_eq_of_lt hmulb
  have hpos : ¬((cu : Int) ≤ 0) := by exact_mod_cast not_le.mpr hcu0
  have hcast : u64_as_i64 cu = (cu : Int) := by
    unfold u64_as_i64
    rw [if_pos hcu63]
  have hmain : process_item ⟨some ⟨some ⟨fee, some cu⟩⟩, none, id⟩ =
      some ((fee - 5000) * 1000000 / cu % 2 ^ 64) := by
    simp [process_item, hcast, hpos, as_u64, hmul]
  refine ⟨hmain, hmulb, fun hq => ?_⟩
  rw [hmain, Nat.mod_eq_of_lt hq]

/-- Claim C3 witness: fee = 10000, computeUnitsConsumed = 1000 yields the
sample 5000000. -/
theorem claim_C3_witness :
    process_item ⟨some ⟨some ⟨10000, some 1000⟩⟩, none, 0⟩ = some 5000000 := by
  have h := claim_C3_amended 10000 1000 0 (by norm_num) (by norm_num)
    (by norm_num) (by norm_num)
  exact h.1.trans (by norm_num)

/-- Claim C4: for every non-empty collection of fee samples delivered by
the (first, successful) batch attempt, the median chosen by
`get_reasonable_priority_fee` is the element at index `len / 2` of the
ascending sort of the samples — the upper median for even lengths, not an
average.  `s` is any ascending sorted permutation of the samples (such a
list is unique). -/
theorem claim_C4 (signatures : List String) (hs : signatures ≠ [])
    (fees : List Nat) (hf : fees ≠ [])
    (rest : List (Except RpcFailure (List Nat)))
    (s : List Nat) (hperm : s.Perm fees) (hsort : s.Sorted (fun a b => a ≤ b)) :
    get_reasonable_priority_fee (.ok signatures) (.ok fees :: rest) =
      .ok (min (s.getD (fees.length / 2) 0) 5000000) := by
  have h1 : signatures.isEmpty = false := by
    cases signatures with
    | nil => exact absurd rfl hs
    | cons a l => rfl
  have h2 : fees.isEmpty = false := by
    cases fees with
    | nil => exact absurd rfl hf
    | cons a l => rfl
  have hsorteq : fees.insertionSort (fun a b => a ≤ b) = s :=
    List.eq_of_perm_of_sorted
      ((List.perm_insertionSort _ fees).trans hperm.symm)
      (List.sorted_insertionSort _ fees) hsort
  simp only [get_reasonable_priority_fee, h1, Bool.false_eq_true, if_false,
    show List.take MAX_RETRIES (Except.ok fees :: rest) =
      Except.ok fees :: List.take 9 rest from rfl,
    show retry_loop (Except.ok fees :: List.take 9 rest) none [] =
      (none, fees) from rfl,
    h2, hsorteq]

/-- Claim C4 witness: samples [1, 3, 5] give median 3 and samples
[1, 3, 5, 7] give the upper median 5. -/
theorem claim_C4_witness :
    get_reasonable_priority_fee (.ok ["s"]) [.ok [1, 3, 5]] = .ok 3 ∧
    get_reasonable_priority_fee (.ok ["s"]) [.ok [1, 3, 5, 7]] = .ok 5 := by
  constructor
  · have h := claim_C4 ["s"] (by simp) [1, 3, 5] (by simp) []
      [1, 3, 5] (List.Perm.refl _) (by decide)
    exact h.trans (by norm_num)
  · have h := claim_C4 ["s"] (by simp) [1, 3, 5, 7] (by simp) []
      [1, 3, 5, 7] (List.Perm.refl _) (by decide)
    exact h.trans (by norm_num)

/-- Claim C5: whenever `get_reasonable_priority_fee` returns
successfully, the returned estimate is at most 5000000 (and it is a
`Nat`, hence at least 0), for every signature-fetch outcome and every
sequence of batch-attempt outcomes. -/
theorem claim_C5 (sig_result : Except RpcFailure (List String))
    (attempts : List (Except RpcFailure (List Nat))) (fee : Nat)
    (h : get_reasonable_priority_fee sig_result attempts = .ok fee) :
    fee ≤ 5000000 := by
  unfold get_reasonable_priority_fee at h
  split at h
  · exact absurd h (by simp)
  · split at h
    · simp only [Except.ok.injEq] at h
      omega
    · split at h
      · exact absurd h (by simp)
      · split at h
        · simp only [Except.ok.injEq] at h
          omega
        · simp only [Except.ok.injEq] at h
          exact h ▸ min_le_right _ _

/-- Claim C5 witness: over-ceiling samples [9000000, 9500000] produce the
clamped estimate 5000000, which satisfies the bound. -/
theorem claim_C5_witness :
    get_reasonable_priority_fee (.ok ["s"]) [.ok [9000000, 9500000]] =
      .ok 5000000 ∧
    (5000000 : Nat) ≤ 5000000 := by
  refine ⟨by rfl, claim_C5 (.ok ["s"]) [.ok [9000000, 9500000]] 5000000 (by rfl)⟩

/-- The i64-cast non-positivity test of the eligibility check, expressed
on the underlying u64 value: for v < 2 ^ 64, `u64_as_i64 v ≤ 0` holds
exactly when v = 0 or v ≥ 2 ^ 63. -/
theorem u64_as_i64_nonpos_iff (v : Nat) (hv : v < 2 ^ 64) :
    u64_as_i64 v ≤ 0 ↔ (v = 0 ∨ 2 ^ 63 ≤ v) := by
  unfold u64_as_i64
  split <;> omega

/-- Claim C6 counterexample: the claim characterizes exclusion as
"error, or result absent, or meta absent, or computeUnitsConsumed ≤ 0
(an unsigned value, i.e. = 0)".  The item with computeUnitsConsumed =
2 ^ 63 carries no error, has result and meta present and a strictly
positive computeUnitsConsumed, yet is excluded (because of the i64
cast), so the claimed equivalence is false at this input. -/
theorem claim_C6_cex :
    process_item ⟨some ⟨some ⟨10000, some (2 ^ 63)⟩⟩, none, 0⟩ = none ∧
    (none : Option JsonRpcError).isSome = false ∧
    (some (TransactionResult.mk (some (TransactionMeta.mk 10000
      (some (2 ^ 63))))) ≠ none) ∧
    (TransactionResult.mk (some (TransactionMeta.mk 10000
      (some (2 ^ 63))))).meta ≠ none ∧
    ¬((some ((2 : Nat) ^ 63)).getD 0 ≤ 0) := by
  refine ⟨by decide, rfl, by simp, by simp, by decide⟩

/-- Claim C6 amended: batch items are processed independently —
`extract_fees` is the filterMap of the per-item computation, so valid
items' fees appear in their relative order and erroring items are
skipped, not zero-filled — and an item is excluded exactly when it
carries an error, or its result is absent, or its meta is absent, or its
computeUnitsConsumed (defaulted to 0 when absent, then cast to i64) is 0
or at least 2 ^ 63. -/
theorem claim_C6_amended (responses : List (BatchItem TransactionResult))
    (item : BatchItem TransactionResult)
    (hcu : ∀ tr m, item.result = some tr → tr.meta = some m →
      m.compute_units_consumed.getD 0 < 2 ^ 64) :
    extract_fees responses = responses.filterMap process_item ∧
    (process_item item = none ↔ spec_skip_condition item = true) := by
  constructor
  · induction responses with
    | nil => rfl
    | cons it rest ih =>
      simp only [extract_fees, List.filterMap_cons]
      cases hp : process_item it <;> simp [hp, ih]
  · obtain ⟨res, err, id⟩ := item
    cases err with
    | some e => simp [process_item, spec_skip_condition]
    | none =>
      cases res with
      | none => simp [process_item, spec_skip_condition]
      | some tr =>
        cases htr : tr.meta with
        | none =>
          simp [process_item, spec_skip_condition, htr]
        | some m =>
          have hv : m.compute_units_consumed.getD 0 < 2 ^ 64 :=
            hcu tr m rfl htr
          simp only [process_item, spec_skip_condition, htr,
            Option.isSome_none, Bool.false_eq_true, if_false,
            Bool.false_or, Bool.or_eq_true, decide_eq_true_eq]
          split
          · rename_i hc
            simp only [true_iff]
            exact (u64_as_i64_nonpos_iff _ hv).mp hc
          · rename_i hc
            constructor
            · intro h
              exact absurd h (by simp)
            · intro hor
              exact absurd ((u64_as_i64_nonpos_iff _ hv).mpr hor) hc

/-- Claim C6 witness: a concrete batch of one valid item and one
erroring item, with the equivalence checked at the valid item. -/
theorem claim_C6_witness :
    extract_fees [⟨some ⟨some ⟨10000, some 1000⟩⟩, none, 0⟩,
        ⟨none, some ⟨-32009, "not found"⟩, 1⟩] =
      List.filterMap process_item [⟨some ⟨some ⟨10000, some 1000⟩⟩, none, 0⟩,
        ⟨none, some ⟨-32009, "not found"⟩, 1⟩] ∧
    (process_item ⟨some ⟨some ⟨10000, some 1000⟩⟩, none, 0⟩ = none ↔
      spec_skip_condition ⟨some ⟨some ⟨10000, some 1000⟩⟩, none, 0⟩ = true) :=
  claim_C6_amended _ _ (by
    intro tr m h1 h2
    injection h1 with h1
    subst h1
    injection h2 with h2
    subst h2
    decide)

/-- Claim C7 counterexample: the claim states that `.ok 0` is returned
in exactly the two no-data situations (no signatures, or empty sample
collection).  Here signatures are present and the batch succeeds with
the non-empty sample collection [0], yet the function still returns
`.ok 0` (the median itself is 0), so the "exactly" is false. -/
theorem claim_C7_cex :
    get_reasonable_priority_fee (.ok ["s"]) [.ok [0]] = .ok 0 ∧
    (["s"] : List String) ≠ [] ∧ ([0] : List Nat) ≠ [] := by
  refine ⟨rfl, by simp, by simp⟩

/-- Claim C7 amended: `get_reasonable_priority_fee` returns `.ok 0` when
zero signatures are fetched (independently of the batch attempts, which
are never consulted), and when the batch loop finishes without a
recorded error with an empty sample collection; conversely every `.ok 0`
arises from empty signatures, an empty sample collection, or a clamped
median equal to 0. -/
theorem claim_C7_amended (signatures signatures2 : List String)
    (attempts attempts2 rest : List (Except RpcFailure (List Nat)))
    (err_opt : Option RpcFailure) (fees : List Nat)
    (hs2 : signatures2 ≠ [])
    (hloop : retry_loop (attempts.take MAX_RETRIES) none [] = (err_opt, fees))
    (h0 : get_reasonable_priority_fee (.ok signatures) attempts = .ok 0) :
    get_reasonable_priority_fee (.ok []) attempts2 = .ok 0 ∧
    get_reasonable_priority_fee (.ok signatures2) (.ok [] :: rest) = .ok 0 ∧
    (signatures = [] ∨
      (err_opt = none ∧ (fees = [] ∨
        min ((fees.insertionSort (fun a b => a ≤ b)).getD
          (fees.length / 2) 0) 5000000 = 0))) := by
  have h1 : signatures2.isEmpty = false := by
    cases signatures2 with
    | nil => exact absurd rfl hs2
    | cons a l => rfl
  refine ⟨by simp [get_reasonable_priority_fee], ?_, ?_⟩
  · simp only [get_reasonable_priority_fee, h1, Bool.false_eq_true, if_false,
      show List.take MAX_RETRIES (Except.ok ([] : List Nat) :: rest) =
        Except.ok ([] : List Nat) :: List.take 9 rest from rfl,
      show retry_loop (Except.ok ([] : List Nat) :: List.take 9 rest) none [] =
        (none, ([] : List Nat)) from rfl]
    rfl
  · simp only [get_reasonable_priority_fee] at h0
    by_cases hse : signatures.isEmpty
    · left
      cases signatures with
      | nil => rfl
      | cons a l => exact absurd hse (by simp)
    · right
      rw [if_neg hse, hloop] at h0
      cases err_opt with
      | some e => exact absurd h0 (by simp)
      | none =>
        refine ⟨rfl, ?_⟩
        have h0' : (if fees.isEmpty then Except.ok 0
            else Except.ok (min ((fees.insertionSort (fun a b => a ≤ b)).getD
              (fees.length / 2) 0) 5000000) : Except RpcFailure Nat) =
            .ok 0 := h0
        by_cases hfe : fees.isEmpty
        · left
          cases fees with
          | nil => rfl
          | cons a l => exact absurd hfe (by simp)
        · right
          rw [if_neg hfe] at h0'
          simpa using h0'

/-- Claim C7 witness: the two guaranteed-zero situations at concrete
inputs: no signatures at all, and one signature whose batch attempt
succeeds with an empty sample collection. -/
theorem claim_C7_witness :
    get_reasonable_priority_fee (.ok []) [] = .ok 0 ∧
    get_reasonable_priority_fee (.ok ["s"]) [.ok []] = .ok 0 ∧
    (([] : List String) = [] ∨
      ((none : Option RpcFailure) = none ∧ (([] : List Nat) = [] ∨
        min ((List.insertionSort (fun a b => a ≤ b) ([] : List Nat)).getD
          (([] : List Nat).length / 2) 0) 5000000 = 0))) :=
  claim_C7_amended [] ["s"] [] [] [] none [] (by simp) rfl rfl

/-- Claim C8: whenever the remote answers with HTTP 200 and the body
deserializes to zero batch items while the request contained at least
one signature, `get_priority_fees_for_signatures` fails with the
distinct batch-too-large error; no empty sample collection is returned
as success. -/
theorem claim_C8
    (parse : List Nat → Option (List (BatchItem TransactionResult)))
    (signatures : List String) (resp : HttpResponse)
    (hstatus : resp.status = 200)
    (hparse : parse (resp.body.take MAX_RESPONSE_LEN) = some [])
    (hsig : signatures ≠ []) :
    get_priority_fees_for_signatures parse signatures resp =
      .error .batchTooLarge := by
  have hlen : signatures.length ≠ 0 := by
    cases signatures with
    | nil => exact absurd rfl hsig
    | cons a l => simp
  simp [get_priority_fees_for_signatures, hstatus, hparse, hlen]

/-- Claim C8 witness: one signature, a 200 response deserializing to an
empty batch. -/
theorem claim_C8_witness :
    get_priority_fees_for_signatures (fun _ => some []) ["s"] ⟨200, []⟩ =
      .error .batchTooLarge :=
  claim_C8 (fun _ => some []) ["s"] ⟨200, []⟩ rfl rfl (by simp)

/-- Claim C9 counterexample: the claim states that every response body
longer than the 100000000-byte cap makes the call fail with a
transport-level size error.  In the source the reader is silently capped
(`take(MAX_RESPONSE_LEN)`) with no size check: for a body one byte over
the cap whose first 100000000 bytes form a complete batch document, the
call succeeds and returns the extracted fees. -/
theorem claim_C9_cex :
    MAX_RESPONSE_LEN <
      (List.replicate (MAX_RESPONSE_LEN + 1) (32 : Nat)).length ∧
    get_priority_fees_for_signatures cap_probe_parse ["s"]
      ⟨200, List.replicate (MAX_RESPONSE_LEN + 1) 32⟩ = .ok [5000000] := by
  constructor
  · rw [List.length_replicate]
    exact Nat.lt_succ_self _
  · have hres : cap_probe_parse (List.take MAX_RESPONSE_LEN
        (List.replicate (MAX_RESPONSE_LEN + 1) (32 : Nat))) =
        some [⟨some ⟨some ⟨10000, some 1000⟩⟩, none, 0⟩] := by
      rw [List.take_replicate, Nat.min_eq_left (Nat.le_succ _)]
      unfold cap_probe_parse
      rw [List.length_replicate, if_pos rfl]
    unfold get_priority_fees_for_signatures
    rw [show (HttpResponse.mk 200
        (List.replicate (MAX_RESPONSE_LEN + 1) (32 : Nat))).body =
      List.replicate (MAX_RESPONSE_LEN + 1) (32 : Nat) from rfl]
    rw [hres]
    rfl

/-- Claim C9 amended: the batch call reads at most 100000000 bytes from
the response body — the deserializer only ever sees the first
`MAX_RESPONSE_LEN` bytes, so the outcome is unchanged by truncating the
body there — but an oversized body is silently truncated rather than
surfaced: on an HTTP 200 response no transport error of any kind (in
particular no size error) is ever produced; failures of the truncated
prefix surface as deserialization errors. -/
theorem claim_C9_amended
    (parse : List Nat → Option (List (BatchItem TransactionResult)))
    (signatures : List String) (resp : HttpResponse)
    (st : Nat) (b : List Nat)
    (hstatus : resp.status = 200) :
    get_priority_fees_for_signatures parse signatures resp =
      get_priority_fees_for_signatures parse signatures
        ⟨resp.status, resp.body.take MAX_RESPONSE_LEN⟩ ∧
    (resp.body.take MAX_RESPONSE_LEN).length ≤ MAX_RESPONSE_LEN ∧
    get_priority_fees_for_signatures parse signatures resp ≠
      .error (.transport st b) := by
  have hne : ¬((200 : Nat) ≠ 200) := fun h => h rfl
  refine ⟨?_, List.length_take_le _ _, ?_⟩
  · simp only [get_priority_fees_for_signatures, hstatus]
    rw [List.take_take, Nat.min_self]
    rw [if_neg hne, if_neg hne]
  · simp only [get_priority_fees_for_signatures, hstatus]
    rw [if_neg (by simp)]
    cases hp : parse (resp.body.take MAX_RESPONSE_LEN) with
    | none => simp
    | some responses =>
      simp only [hp]
      by_cases hc : responses.length = 0 ∧ signatures.length ≠ 0
      · rw [if_pos hc]
        simp
      · rw [if_neg hc]
        simp

/-- Claim C9 witness: the amended statement at a concrete 200 response. -/
theorem claim_C9_witness :
    get_priority_fees_for_signatures (fun _ => none) [] ⟨200, []⟩ =
      get_priority_fees_for_signatures (fun _ => none) []
        ⟨200, ([] : List Nat).take MAX_RESPONSE_LEN⟩ ∧
    (([] : List Nat).take MAX_RESPONSE_LEN).length ≤ MAX_RESPONSE_LEN ∧
    get_priority_fees_for_signatures (fun _ => none) [] ⟨200, []⟩ ≠
      .error (.transport 500 [7]) :=
  claim_C9_amended (fun _ => none) [] ⟨200, []⟩ 500 [7] rfl

end IvyPriorityFee
